import Mathlib

/-!
Shallow embedding of `src/custom_components/cync_lights/light.py`.

The file defines two adapter classes, `CyncRoomEntity` and `CyncSwitchEntity`,
each wrapping a backing device object (`room` / `cync_switch`).  We model the
backing device state as a structure, each property getter as a pure function of
that state, and the write path (`async_turn_on` / `async_turn_off`) as a
function returning the call made on the backing device.

Python's `round` builtin rounds half to even.  All divisions in the source
produce values that are either exactly representable as floats or lie far
enough from ties that IEEE rounding error cannot change the result, so we model
the arithmetic exactly over `ℚ` with a round-half-to-even function `pyRound`.
-/

/-- Embeds the Python `round` builtin on an exact rational: round half to even. -/
def pyRound (q : ℚ) : ℤ :=
  if q - ⌊q⌋ < 1 / 2 then ⌊q⌋
  else if 1 / 2 < q - ⌊q⌋ then ⌊q⌋ + 1
  else if ⌊q⌋ % 2 = 0 then ⌊q⌋ else ⌊q⌋ + 1

/-- The homeassistant `ColorMode` values used by `light.py`. -/
inductive ColorMode where
  | rgb
  | color_temp
  | brightness
  | onoff
  deriving DecidableEq

/-- The `rgb` dict of a backing device object: keys `r`, `g`, `b`, `active`
(`rgb.get("active", False)` is modelled by the `active` field). -/
structure RGB where
  r : ℤ
  g : ℤ
  b : ℤ
  active : Bool
  deriving DecidableEq

/-- State of the backing `room` object as read by `CyncRoomEntity`. -/
structure CyncRoom where
  power_state : Bool
  brightness : ℤ
  color_temp : ℤ
  rgb : RGB
  support_rgb : Bool
  support_color_temp : Bool
  support_brightness : Bool
  name : String
  switches : List String
  subgroups : List String

/-- State of the backing `cync_switch` object as read by `CyncSwitchEntity`. -/
structure CyncSwitch where
  power_state : Bool
  brightness : ℤ
  color_temp : ℤ
  rgb : RGB
  support_rgb : Bool
  support_color_temp : Bool
  support_brightness : Bool
  name : String
  device_id : String

/-- The keyword arguments a `async_turn_on` call may receive
(`ATTR_RGB_COLOR`, `ATTR_BRIGHTNESS`, `ATTR_COLOR_TEMP_KELVIN`); an absent
key (`kwargs.get` returning `None`) is `none`. -/
structure TurnOnArgs where
  rgb_color : Option (ℤ × ℤ × ℤ)
  brightness : Option ℤ
  color_temp_kelvin : Option ℤ

/-- The asynchronous call the adapter makes on the backing device object. -/
inductive DeviceCall where
  | turnOn (rgb : Option (ℤ × ℤ × ℤ)) (brightness : Option ℤ)
      (color_temp_percent : Option ℤ)
  | turnOff
  deriving DecidableEq

/-- Embeds `CyncRoomEntity._attr_min_color_temp_kelvin = 2000` (class attribute). -/
def CyncRoomEntity._attr_min_color_temp_kelvin : ℤ := 2000

/-- Embeds `CyncRoomEntity._attr_max_color_temp_kelvin = 6500` (class attribute). -/
def CyncRoomEntity._attr_max_color_temp_kelvin : ℤ := 6500

/-- Embeds `CyncRoomEntity.is_on`: `return self.room.power_state`. -/
def CyncRoomEntity.is_on (room : CyncRoom) : Bool :=
  room.power_state

/-- Embeds `CyncRoomEntity.brightness`: `round(self.room.brightness * 255 / 100)`. -/
def CyncRoomEntity.brightness (room : CyncRoom) : ℤ :=
  pyRound ((room.brightness : ℚ) * 255 / 100)

/-- Embeds `CyncRoomEntity.color_temp_kelvin`: `None` unless
`self.room.support_color_temp`, else
`round(min_k + (max_k - min_k) * (self.room.color_temp / 100))`. -/
def CyncRoomEntity.color_temp_kelvin (room : CyncRoom) : Option ℤ :=
  if room.support_color_temp = false then none
  else some (pyRound ((CyncRoomEntity._attr_min_color_temp_kelvin : ℚ)
    + ((CyncRoomEntity._attr_max_color_temp_kelvin : ℚ)
        - (CyncRoomEntity._attr_min_color_temp_kelvin : ℚ))
      * ((room.color_temp : ℚ) / 100)))

/-- Embeds `CyncRoomEntity.rgb_color`: `None` unless `self.room.support_rgb`, else
the tuple `(rgb["r"], rgb["g"], rgb["b"])`. -/
def CyncRoomEntity.rgb_color (room : CyncRoom) : Option (ℤ × ℤ × ℤ) :=
  if room.support_rgb = false then none
  else some (room.rgb.r, room.rgb.g, room.rgb.b)

/-- Embeds `CyncRoomEntity._get_supported_color_modes`: build up `modes` by the
source's four conditional `add`s. -/
def CyncRoomEntity._get_supported_color_modes (room : CyncRoom) :
    Finset ColorMode :=
  let modes : Finset ColorMode := ∅
  let modes := if room.support_rgb then insert ColorMode.rgb modes else modes
  let modes :=
    if room.support_color_temp then insert ColorMode.color_temp modes else modes
  let modes :=
    if modes = ∅ ∧ room.support_brightness then
      insert ColorMode.brightness modes
    else modes
  if modes = ∅ then insert ColorMode.onoff modes else modes

/-- Embeds `CyncRoomEntity.color_mode`: the active color mode of the room entity. -/
def CyncRoomEntity.color_mode (room : CyncRoom) : Option ColorMode :=
  if CyncRoomEntity.is_on room = false then none
  else if room.support_color_temp then
    if room.support_rgb ∧ room.rgb.active then some ColorMode.rgb
    else some ColorMode.color_temp
  else if room.support_brightness then some ColorMode.brightness
  else some ColorMode.onoff

/-- Embeds `CyncRoomEntity._kelvin_to_percent`:
`round(max(0, min(100, 100 * (kelvin - min_k) / (max_k - min_k))))`. -/
def CyncRoomEntity._kelvin_to_percent (kelvin : ℤ) : ℤ :=
  pyRound (max 0 (min 100
    (100 * ((kelvin : ℚ) - (CyncRoomEntity._attr_min_color_temp_kelvin : ℚ))
      / ((CyncRoomEntity._attr_max_color_temp_kelvin : ℚ)
          - (CyncRoomEntity._attr_min_color_temp_kelvin : ℚ)))))

/-- Embeds `CyncRoomEntity.async_turn_on`: converts `ATTR_COLOR_TEMP_KELVIN` to a
percent when present (else `None`) and awaits
`self.room.turn_on(rgb, brightness, ct_percent)`; we return that call. -/
def CyncRoomEntity.async_turn_on (kwargs : TurnOnArgs) : DeviceCall :=
  let ct_percent :=
    match kwargs.color_temp_kelvin with
    | some k => some (CyncRoomEntity._kelvin_to_percent k)
    | none => none
  DeviceCall.turnOn kwargs.rgb_color kwargs.brightness ct_percent

/-- Embeds `CyncRoomEntity.async_turn_off`: awaits `self.room.turn_off()`. -/
def CyncRoomEntity.async_turn_off : DeviceCall :=
  DeviceCall.turnOff

/-- Embeds `CyncRoomEntity.unique_id`:
`"cync_room_" + "-".join(switches) + "_" + "-".join(subgroups)`. -/
def CyncRoomEntity.unique_id (room : CyncRoom) : String :=
  "cync_room_" ++ String.intercalate "-" room.switches ++ "_"
    ++ String.intercalate "-" room.subgroups

/-- Embeds `CyncSwitchEntity._attr_min_color_temp_kelvin = 2000` (class attribute). -/
def CyncSwitchEntity._attr_min_color_temp_kelvin : ℤ := 2000

/-- Embeds `CyncSwitchEntity._attr_max_color_temp_kelvin = 6500` (class attribute). -/
def CyncSwitchEntity._attr_max_color_temp_kelvin : ℤ := 6500

/-- Embeds `CyncSwitchEntity.is_on`: `return self.cync_switch.power_state`. -/
def CyncSwitchEntity.is_on (cync_switch : CyncSwitch) : Bool :=
  cync_switch.power_state

/-- Embeds `CyncSwitchEntity.brightness`:
`round(self.cync_switch.brightness * 255 / 100)`. -/
def CyncSwitchEntity.brightness (cync_switch : CyncSwitch) : ℤ :=
  pyRound ((cync_switch.brightness : ℚ) * 255 / 100)

/-- Embeds `CyncSwitchEntity.color_temp_kelvin`: `None` unless
`self.cync_switch.support_color_temp`, else
`round(min_k + (max_k - min_k) * (self.cync_switch.color_temp / 100))`. -/
def CyncSwitchEntity.color_temp_kelvin (cync_switch : CyncSwitch) : Option ℤ :=
  if cync_switch.support_color_temp = false then none
  else some (pyRound ((CyncSwitchEntity._attr_min_color_temp_kelvin : ℚ)
    + ((CyncSwitchEntity._attr_max_color_temp_kelvin : ℚ)
        - (CyncSwitchEntity._attr_min_color_temp_kelvin : ℚ))
      * ((cync_switch.color_temp : ℚ) / 100)))

/-- Embeds `CyncSwitchEntity.rgb_color`: `None` unless `self.cync_switch.support_rgb`,
else the tuple `(rgb["r"], rgb["g"], rgb["b"])`. -/
def CyncSwitchEntity.rgb_color (cync_switch : CyncSwitch) :
    Option (ℤ × ℤ × ℤ) :=
  if cync_switch.support_rgb = false then none
  else some (cync_switch.rgb.r, cync_switch.rgb.g, cync_switch.rgb.b)

/-- Embeds `CyncSwitchEntity._get_supported_color_modes`: build up `modes` by the
source's four conditional `add`s. -/
def CyncSwitchEntity._get_supported_color_modes (cync_switch : CyncSwitch) :
    Finset ColorMode :=
  let modes : Finset ColorMode := ∅
  let modes :=
    if cync_switch.support_rgb then insert ColorMode.rgb modes else modes
  let modes :=
    if cync_switch.support_color_temp then insert ColorMode.color_temp modes
    else modes
  let modes :=
    if modes = ∅ ∧ cync_switch.support_brightness then
      insert ColorMode.brightness modes
    else modes
  if modes = ∅ then insert ColorMode.onoff modes else modes

/-- Embeds `CyncSwitchEntity.color_mode`: the active color mode of the switch
entity. -/
def CyncSwitchEntity.color_mode (cync_switch : CyncSwitch) : Option ColorMode :=
  if CyncSwitchEntity.is_on cync_switch = false then none
  else if cync_switch.support_color_temp then
    if cync_switch.support_rgb ∧ cync_switch.rgb.active then some ColorMode.rgb
    else some ColorMode.color_temp
  else if cync_switch.support_brightness then some ColorMode.brightness
  else some ColorMode.onoff

/-- Embeds `CyncSwitchEntity._kelvin_to_percent`:
`round(max(0, min(100, 100 * (kelvin - min_k) / (max_k - min_k))))`. -/
def CyncSwitchEntity._kelvin_to_percent (kelvin : ℤ) : ℤ :=
  pyRound (max 0 (min 100
    (100 * ((kelvin : ℚ) - (CyncSwitchEntity._attr_min_color_temp_kelvin : ℚ))
      / ((CyncSwitchEntity._attr_max_color_temp_kelvin : ℚ)
          - (CyncSwitchEntity._attr_min_color_temp_kelvin : ℚ)))))

/-- Embeds `CyncSwitchEntity.async_turn_on`: converts `ATTR_COLOR_TEMP_KELVIN` to a
percent when present (else `None`) and awaits
`self.cync_switch.turn_on(rgb, brightness, ct_percent)`; we return that
call. -/
def CyncSwitchEntity.async_turn_on (kwargs : TurnOnArgs) : DeviceCall :=
  let ct_percent :=
    match kwargs.color_temp_kelvin with
    | some k => some (CyncSwitchEntity._kelvin_to_percent k)
    | none => none
  DeviceCall.turnOn kwargs.rgb_color kwargs.brightness ct_percent

/-- Embeds `CyncSwitchEntity.async_turn_off`: awaits `self.cync_switch.turn_off()`. -/
def CyncSwitchEntity.async_turn_off : DeviceCall :=
  DeviceCall.turnOff

/-- Embeds `CyncSwitchEntity.unique_id`: `"cync_switch_" + self.cync_switch.device_id`. -/
def CyncSwitchEntity.unique_id (cync_switch : CyncSwitch) : String :=
  "cync_switch_" ++ cync_switch.device_id

/-- Rounding an integer returns that integer. -/
theorem pyRound_intCast (n : ℤ) : pyRound (n : ℚ) = n := by
  simp [pyRound]

/-- Rounding never goes below the floor. -/
theorem floor_le_pyRound (q : ℚ) : ⌊q⌋ ≤ pyRound q := by
  unfold pyRound
  split_ifs <;> omega

/-- Rounding respects integer lower bounds. -/
theorem le_pyRound_of_le (n : ℤ) (q : ℚ) (h : (n : ℚ) ≤ q) : n ≤ pyRound q := by
  have h1 : n ≤ ⌊q⌋ := Int.le_floor.mpr h
  have h2 := floor_le_pyRound q
  omega

/-- Rounding respects integer upper bounds. -/
theorem pyRound_le_of_le (q : ℚ) (n : ℤ) (h : q ≤ (n : ℚ)) : pyRound q ≤ n := by
  have hfl : ⌊q⌋ ≤ n := by
    have hh := Int.floor_le_floor h
    simpa using hh
  have hkey : 1 / 2 ≤ q - ⌊q⌋ → ⌊q⌋ + 1 ≤ n := by
    intro hr
    rcases lt_or_eq_of_le hfl with h1 | h1
    · omega
    · exfalso
      rw [h1] at hr
      have hq : q ≤ (⌊q⌋ : ℚ) := by
        rw [h1]
        exact h
      linarith
  unfold pyRound
  split_ifs with h1 h2 h3
  · exact hfl
  · exact hkey (le_of_lt h2)
  · exact hfl
  · exact hkey (not_lt.mp h1)

/-- Shared bound: the room conversion from Kelvin is nonnegative. -/
theorem room_kelvin_to_percent_nonneg (k : ℤ) :
    0 ≤ CyncRoomEntity._kelvin_to_percent k := by
  unfold CyncRoomEntity._kelvin_to_percent
  apply le_pyRound_of_le
  push_cast
  exact le_max_left _ _

/-- Shared bound: the room conversion from Kelvin is at most 100. -/
theorem room_kelvin_to_percent_le (k : ℤ) :
    CyncRoomEntity._kelvin_to_percent k ≤ 100 := by
  unfold CyncRoomEntity._kelvin_to_percent
  apply pyRound_le_of_le
  push_cast
  exact max_le (by norm_num) (min_le_left _ _)

/-- Shared fact: both adapters implement the same Kelvin conversion. -/
theorem switch_kelvin_to_percent_eq (k : ℤ) :
    CyncSwitchEntity._kelvin_to_percent k = CyncRoomEntity._kelvin_to_percent k := by
  rfl

/-- C1: for every combination of the three capability flags,
`_get_supported_color_modes` (on both adapter classes) returns exactly the set
given by the documented rule: RGB when `support_rgb`, COLOR_TEMP when
`support_color_temp`, else BRIGHTNESS when `support_brightness`, else ONOFF;
a pure function of exactly these three booleans, over all 8 combinations. -/
theorem C1_supported_color_modes (room : CyncRoom) (cync_switch : CyncSwitch) :
    (CyncRoomEntity._get_supported_color_modes room =
      if room.support_rgb ∧ room.support_color_temp then
        ({ColorMode.rgb, ColorMode.color_temp} : Finset ColorMode)
      else if room.support_rgb then {ColorMode.rgb}
      else if room.support_color_temp then {ColorMode.color_temp}
      else if room.support_brightness then {ColorMode.brightness}
      else {ColorMode.onoff}) ∧
    (CyncSwitchEntity._get_supported_color_modes cync_switch =
      if cync_switch.support_rgb ∧ cync_switch.support_color_temp then
        ({ColorMode.rgb, ColorMode.color_temp} : Finset ColorMode)
      else if cync_switch.support_rgb then {ColorMode.rgb}
      else if cync_switch.support_color_temp then {ColorMode.color_temp}
      else if cync_switch.support_brightness then {ColorMode.brightness}
      else {ColorMode.onoff}) := by
  obtain ⟨ps, b, ct, rgb, sr, sct, sb, nm, sw, sg⟩ := room
  obtain ⟨ps2, b2, ct2, rgb2, sr2, sct2, sb2, nm2, did⟩ := cync_switch
  constructor
  · cases sr <;> cases sct <;> cases sb <;>
      simp [CyncRoomEntity._get_supported_color_modes] <;> decide
  · cases sr2 <;> cases sct2 <;> cases sb2 <;>
      simp [CyncSwitchEntity._get_supported_color_modes] <;> decide

/-- C2: `color_mode` (on both adapter classes) is `none` whenever the backing
power state is false, regardless of capabilities; when on, it is RGB when
color-temp and RGB are supported and the rgb active flag is set, else
COLOR_TEMP when color-temp is supported, else BRIGHTNESS when brightness is
supported, else ONOFF. -/
theorem C2_color_mode (room : CyncRoom) (cync_switch : CyncSwitch) :
    (CyncRoomEntity.color_mode room =
      if room.power_state = false then none
      else if room.support_color_temp ∧ room.support_rgb ∧ room.rgb.active then
        some ColorMode.rgb
      else if room.support_color_temp then some ColorMode.color_temp
      else if room.support_brightness then some ColorMode.brightness
      else some ColorMode.onoff) ∧
    (CyncSwitchEntity.color_mode cync_switch =
      if cync_switch.power_state = false then none
      else if cync_switch.support_color_temp ∧ cync_switch.support_rgb
          ∧ cync_switch.rgb.active then
        some ColorMode.rgb
      else if cync_switch.support_color_temp then some ColorMode.color_temp
      else if cync_switch.support_brightness then some ColorMode.brightness
      else some ColorMode.onoff) := by
  obtain ⟨ps, b, ct, ⟨r, g, bb, act⟩, sr, sct, sb, nm, sw, sg⟩ := room
  obtain ⟨ps2, b2, ct2, ⟨r2, g2, bb2, act2⟩, sr2, sct2, sb2, nm2, did⟩ := cync_switch
  constructor
  · cases ps <;> cases sr <;> cases sct <;> cases sb <;> cases act <;>
      simp [CyncRoomEntity.color_mode, CyncRoomEntity.is_on]
  · cases ps2 <;> cases sr2 <;> cases sct2 <;> cases sb2 <;> cases act2 <;>
      simp [CyncSwitchEntity.color_mode, CyncSwitchEntity.is_on]

/-- Shared fact: the room read path sends percent `p` to Kelvin `2000 + 45p`. -/
theorem room_color_temp_kelvin_linear (room : CyncRoom)
    (hsct : room.support_color_temp = true) :
    CyncRoomEntity.color_temp_kelvin room = some (2000 + 45 * room.color_temp) := by
  unfold CyncRoomEntity.color_temp_kelvin
  rw [hsct]
  have harg : (CyncRoomEntity._attr_min_color_temp_kelvin : ℚ)
      + ((CyncRoomEntity._attr_max_color_temp_kelvin : ℚ)
          - (CyncRoomEntity._attr_min_color_temp_kelvin : ℚ))
        * ((room.color_temp : ℚ) / 100)
      = ((2000 + 45 * room.color_temp : ℤ) : ℚ) := by
    unfold CyncRoomEntity._attr_min_color_temp_kelvin
      CyncRoomEntity._attr_max_color_temp_kelvin
    push_cast
    ring
  rw [harg, pyRound_intCast]
  simp

/-- Shared fact: the switch read path sends percent `p` to Kelvin `2000 + 45p`. -/
theorem switch_color_temp_kelvin_linear (cync_switch : CyncSwitch)
    (hsct : cync_switch.support_color_temp = true) :
    CyncSwitchEntity.color_temp_kelvin cync_switch =
      some (2000 + 45 * cync_switch.color_temp) := by
  unfold CyncSwitchEntity.color_temp_kelvin
  rw [hsct]
  have harg : (CyncSwitchEntity._attr_min_color_temp_kelvin : ℚ)
      + ((CyncSwitchEntity._attr_max_color_temp_kelvin : ℚ)
          - (CyncSwitchEntity._attr_min_color_temp_kelvin : ℚ))
        * ((cync_switch.color_temp : ℚ) / 100)
      = ((2000 + 45 * cync_switch.color_temp : ℤ) : ℚ) := by
    unfold CyncSwitchEntity._attr_min_color_temp_kelvin
      CyncSwitchEntity._attr_max_color_temp_kelvin
    push_cast
    ring
  rw [harg, pyRound_intCast]
  simp

/-- Shared fact: the write path inverts the linear Kelvin map exactly on
`[0, 100]`. -/
theorem room_kelvin_to_percent_exact (p : ℤ) (h0 : 0 ≤ p) (h1 : p ≤ 100) :
    CyncRoomEntity._kelvin_to_percent (2000 + 45 * p) = p := by
  have hp0 : (0 : ℚ) ≤ (p : ℚ) := by exact_mod_cast h0
  have hp1 : (p : ℚ) ≤ 100 := by exact_mod_cast h1
  unfold CyncRoomEntity._kelvin_to_percent
  unfold CyncRoomEntity._attr_min_color_temp_kelvin
    CyncRoomEntity._attr_max_color_temp_kelvin
  have hfr : 100 * (((2000 + 45 * p : ℤ) : ℚ) - ((2000 : ℤ) : ℚ))
      / (((6500 : ℤ) : ℚ) - ((2000 : ℤ) : ℚ)) = (p : ℚ) := by
    push_cast
    field_simp
    ring
  rw [hfr, min_eq_right hp1, max_eq_right hp0]
  exact pyRound_intCast p

/-- C3: for every integer Kelvin `k`, `_kelvin_to_percent` returns the rounded
clamp of `100 * (k - 2000) / (6500 - 2000)` to `[0, 100]`, so the result
always lies in `[0, 100]`; and `async_turn_on` with Kelvin 2000, 6500, 9000, 0
passes color-temp percent 0, 100, 100, 0 respectively to the device. -/
theorem C3_kelvin_to_percent_clamped :
    (∀ k : ℤ, CyncRoomEntity._kelvin_to_percent k =
        pyRound (max 0 (min 100 (100 * ((k : ℚ) - 2000) / (6500 - 2000)))) ∧
      0 ≤ CyncRoomEntity._kelvin_to_percent k ∧
      CyncRoomEntity._kelvin_to_percent k ≤ 100) ∧
    CyncRoomEntity.async_turn_on ⟨none, none, some 2000⟩ =
      DeviceCall.turnOn none none (some 0) ∧
    CyncRoomEntity.async_turn_on ⟨none, none, some 6500⟩ =
      DeviceCall.turnOn none none (some 100) ∧
    CyncRoomEntity.async_turn_on ⟨none, none, some 9000⟩ =
      DeviceCall.turnOn none none (some 100) ∧
    CyncRoomEntity.async_turn_on ⟨none, none, some 0⟩ =
      DeviceCall.turnOn none none (some 0) := by
  have h2000 : CyncRoomEntity._kelvin_to_percent 2000 = 0 := by
    norm_num [CyncRoomEntity._kelvin_to_percent,
      CyncRoomEntity._attr_min_color_temp_kelvin,
      CyncRoomEntity._attr_max_color_temp_kelvin, pyRound]
  have h6500 : CyncRoomEntity._kelvin_to_percent 6500 = 100 := by
    norm_num [CyncRoomEntity._kelvin_to_percent,
      CyncRoomEntity._attr_min_color_temp_kelvin,
      CyncRoomEntity._attr_max_color_temp_kelvin, pyRound]
  have h9000 : CyncRoomEntity._kelvin_to_percent 9000 = 100 := by
    norm_num [CyncRoomEntity._kelvin_to_percent,
      CyncRoomEntity._attr_min_color_temp_kelvin,
      CyncRoomEntity._attr_max_color_temp_kelvin, pyRound]
  have h0 : CyncRoomEntity._kelvin_to_percent 0 = 0 := by
    norm_num [CyncRoomEntity._kelvin_to_percent,
      CyncRoomEntity._attr_min_color_temp_kelvin,
      CyncRoomEntity._attr_max_color_temp_kelvin, pyRound]
  refine ⟨fun k => ⟨?_, room_kelvin_to_percent_nonneg k, room_kelvin_to_percent_le k⟩,
    ?_, ?_, ?_, ?_⟩
  · norm_num [CyncRoomEntity._kelvin_to_percent,
      CyncRoomEntity._attr_min_color_temp_kelvin,
      CyncRoomEntity._attr_max_color_temp_kelvin]
  · simp [CyncRoomEntity.async_turn_on, h2000]
  · simp [CyncRoomEntity.async_turn_on, h6500]
  · simp [CyncRoomEntity.async_turn_on, h9000]
  · simp [CyncRoomEntity.async_turn_on, h0]

/-- C4: reading a supported color temperature as Kelvin and converting it back
with `_kelvin_to_percent` returns the original device percent within 1 (in
fact exactly) for every percent in `[0, 100]`. -/
theorem C4_round_trip (room : CyncRoom) (hsct : room.support_color_temp = true)
    (h0 : 0 ≤ room.color_temp) (h1 : room.color_temp ≤ 100) (k : ℤ)
    (hk : CyncRoomEntity.color_temp_kelvin room = some k) :
    (CyncRoomEntity._kelvin_to_percent k - room.color_temp).natAbs ≤ 1 := by
  rw [room_color_temp_kelvin_linear room hsct] at hk
  have hkv : 2000 + 45 * room.color_temp = k := Option.some.inj hk
  rw [← hkv, room_kelvin_to_percent_exact room.color_temp h0 h1]
  omega

/-- C4 witness: percent 50 reads as 4250 Kelvin, which converts back to 50. -/
theorem C4_round_trip_witness :
    (CyncRoomEntity._kelvin_to_percent 4250 - (50 : ℤ)).natAbs ≤ 1 :=
  C4_round_trip ⟨true, 50, 50, ⟨0, 0, 0, false⟩, false, true, false, "room", [], []⟩
    rfl (by decide) (by decide) 4250
    (by norm_num [CyncRoomEntity.color_temp_kelvin,
      CyncRoomEntity._attr_min_color_temp_kelvin,
      CyncRoomEntity._attr_max_color_temp_kelvin, pyRound])

/-- C5: for device brightness in `[0, 100]`, both adapters report
`round(value * 255 / 100)`, which lies in the host scale `[0, 255]`. -/
theorem C5_brightness (room : CyncRoom) (cync_switch : CyncSwitch)
    (hr0 : 0 ≤ room.brightness) (hr1 : room.brightness ≤ 100)
    (hs0 : 0 ≤ cync_switch.brightness) (hs1 : cync_switch.brightness ≤ 100) :
    (CyncRoomEntity.brightness room = pyRound ((room.brightness : ℚ) * 255 / 100) ∧
      0 ≤ CyncRoomEntity.brightness room ∧ CyncRoomEntity.brightness room ≤ 255) ∧
    (CyncSwitchEntity.brightness cync_switch =
        pyRound ((cync_switch.brightness : ℚ) * 255 / 100) ∧
      0 ≤ CyncSwitchEntity.brightness cync_switch ∧
      CyncSwitchEntity.brightness cync_switch ≤ 255) := by
  have key : ∀ b : ℤ, 0 ≤ b → b ≤ 100 →
      0 ≤ pyRound ((b : ℚ) * 255 / 100) ∧ pyRound ((b : ℚ) * 255 / 100) ≤ 255 := by
    intro b hb0 hb1
    have hq0 : (0 : ℚ) ≤ (b : ℚ) := by exact_mod_cast hb0
    have hq1 : (b : ℚ) ≤ 100 := by exact_mod_cast hb1
    constructor
    · apply le_pyRound_of_le
      push_cast
      exact div_nonneg (mul_nonneg hq0 (by norm_num)) (by norm_num)
    · apply pyRound_le_of_le
      push_cast
      rw [div_le_iff₀ (by norm_num : (0 : ℚ) < 100)]
      nlinarith
  exact ⟨⟨rfl, (key room.brightness hr0 hr1).1, (key room.brightness hr0 hr1).2⟩,
    ⟨rfl, (key cync_switch.brightness hs0 hs1).1,
      (key cync_switch.brightness hs0 hs1).2⟩⟩

/-- C5 witness: device brightness 50 maps into the host range. -/
theorem C5_brightness_witness :
    0 ≤ CyncRoomEntity.brightness
      ⟨true, 50, 0, ⟨0, 0, 0, false⟩, false, false, true, "room", [], []⟩ :=
  (C5_brightness ⟨true, 50, 0, ⟨0, 0, 0, false⟩, false, false, true, "room", [], []⟩
    ⟨true, 50, 0, ⟨0, 0, 0, false⟩, false, false, true, "sw", "dev1"⟩
    (by decide) (by decide) (by decide) (by decide)).1.2.1

/-- C6: with color temperature supported and device percent in `[0, 100]`,
`color_temp_kelvin` returns `round(2000 + (6500 - 2000) * (p / 100))`, i.e.
exactly `2000 + 45p`, which lies in the Kelvin window `[2000, 6500]`; without
color-temp support it returns `None`. -/
theorem C6_color_temp_kelvin_window (room : CyncRoom) (cync_switch : CyncSwitch) :
    ((room.support_color_temp = false → CyncRoomEntity.color_temp_kelvin room = none) ∧
      (room.support_color_temp = true →
        CyncRoomEntity.color_temp_kelvin room =
          some (pyRound ((2000 : ℚ) + ((6500 : ℚ) - 2000) * ((room.color_temp : ℚ) / 100))) ∧
        (0 ≤ room.color_temp → room.color_temp ≤ 100 →
          CyncRoomEntity.color_temp_kelvin room = some (2000 + 45 * room.color_temp) ∧
          2000 ≤ 2000 + 45 * room.color_temp ∧ 2000 + 45 * room.color_temp ≤ 6500))) ∧
    ((cync_switch.support_color_temp = false →
        CyncSwitchEntity.color_temp_kelvin cync_switch = none) ∧
      (cync_switch.support_color_temp = true →
        CyncSwitchEntity.color_temp_kelvin cync_switch =
          some (pyRound ((2000 : ℚ) + ((6500 : ℚ) - 2000)
            * ((cync_switch.color_temp : ℚ) / 100))) ∧
        (0 ≤ cync_switch.color_temp → cync_switch.color_temp ≤ 100 →
          CyncSwitchEntity.color_temp_kelvin cync_switch =
            some (2000 + 45 * cync_switch.color_temp) ∧
          2000 ≤ 2000 + 45 * cync_switch.color_temp ∧
          2000 + 45 * cync_switch.color_temp ≤ 6500))) := by
  constructor
  · constructor
    · intro h
      unfold CyncRoomEntity.color_temp_kelvin
      rw [h]
      simp
    · intro hsct
      constructor
      · unfold CyncRoomEntity.color_temp_kelvin
          CyncRoomEntity._attr_min_color_temp_kelvin
          CyncRoomEntity._attr_max_color_temp_kelvin
        rw [hsct]
        norm_num
      · intro h0 h1
        exact ⟨room_color_temp_kelvin_linear room hsct, by omega, by omega⟩
  · constructor
    · intro h
      unfold CyncSwitchEntity.color_temp_kelvin
      rw [h]
      simp
    · intro hsct
      constructor
      · unfold CyncSwitchEntity.color_temp_kelvin
          CyncSwitchEntity._attr_min_color_temp_kelvin
          CyncSwitchEntity._attr_max_color_temp_kelvin
        rw [hsct]
        norm_num
      · intro h0 h1
        exact ⟨switch_color_temp_kelvin_linear cync_switch hsct, by omega, by omega⟩

/-- C6 witness: a room at percent 50 reads as 4250 Kelvin. -/
theorem C6_color_temp_kelvin_window_witness :
    CyncRoomEntity.color_temp_kelvin
        ⟨true, 0, 50, ⟨0, 0, 0, false⟩, false, true, false, "room", [], []⟩ =
      some (2000 + 45 * 50) :=
  (((C6_color_temp_kelvin_window
      ⟨true, 0, 50, ⟨0, 0, 0, false⟩, false, true, false, "room", [], []⟩
      ⟨true, 0, 0, ⟨0, 0, 0, false⟩, false, false, false, "sw", "dev1"⟩).1.2
    rfl).2 (by decide) (by decide)).1

/-- C7: a room unique id is the frozen concatenation of the prefix, the switch
ids joined by hyphens, an underscore, and the subgroup ids joined by hyphens,
giving `"cync_room_A-B_C"` for switches A, B and subgroup C; a switch unique id
is the fixed prefix followed by the device id. -/
theorem C7_unique_id (room : CyncRoom) (cync_switch : CyncSwitch) :
    CyncRoomEntity.unique_id room =
      "cync_room_" ++ String.intercalate "-" room.switches ++ "_"
        ++ String.intercalate "-" room.subgroups ∧
    (room.switches = ["A", "B"] → room.subgroups = ["C"] →
      CyncRoomEntity.unique_id room = "cync_room_A-B_C") ∧
    CyncSwitchEntity.unique_id cync_switch =
      "cync_switch_" ++ cync_switch.device_id := by
  refine ⟨rfl, ?_, rfl⟩
  intro h1 h2
  unfold CyncRoomEntity.unique_id
  rw [h1, h2]
  rfl

/-- C7 witness: the frozen example id for switches A, B and subgroup C. -/
theorem C7_unique_id_witness :
    CyncRoomEntity.unique_id ⟨true, 0, 0, ⟨0, 0, 0, false⟩, false, false, false,
        "room", ["A", "B"], ["C"]⟩ = "cync_room_A-B_C" :=
  (C7_unique_id ⟨true, 0, 0, ⟨0, 0, 0, false⟩, false, false, false,
      "room", ["A", "B"], ["C"]⟩
    ⟨true, 0, 0, ⟨0, 0, 0, false⟩, false, false, false, "sw", "dev1"⟩).2.1 rfl rfl

/-- C8: for every (possibly partial) set of turn-on attributes, both adapters
delegate to the backing device with the triple (rgb, brightness,
color-temp-percent), converting a present Kelvin value through the clamped
`_kelvin_to_percent` (result in `[0, 100]`) and passing `None` through for
every absent attribute (totally, never raising); `async_turn_off` delegates
with no arguments. -/
theorem C8_turn_on_dispatch (kwargs : TurnOnArgs) :
    CyncRoomEntity.async_turn_on kwargs =
      DeviceCall.turnOn kwargs.rgb_color kwargs.brightness
        (Option.map CyncRoomEntity._kelvin_to_percent kwargs.color_temp_kelvin) ∧
    (∀ k : ℤ, kwargs.color_temp_kelvin = some k →
      0 ≤ CyncRoomEntity._kelvin_to_percent k ∧
      CyncRoomEntity._kelvin_to_percent k ≤ 100) ∧
    CyncRoomEntity.async_turn_off = DeviceCall.turnOff ∧
    CyncSwitchEntity.async_turn_on kwargs =
      DeviceCall.turnOn kwargs.rgb_color kwargs.brightness
        (Option.map CyncSwitchEntity._kelvin_to_percent kwargs.color_temp_kelvin) ∧
    CyncSwitchEntity.async_turn_off = DeviceCall.turnOff := by
  obtain ⟨r, b, ct⟩ := kwargs
  refine ⟨?_, ?_, rfl, ?_, rfl⟩
  · cases ct <;> rfl
  · intro k hk
    exact ⟨room_kelvin_to_percent_nonneg k, room_kelvin_to_percent_le k⟩
  · cases ct <;> rfl

/-- C8 witness: a turn-on carrying Kelvin 9000 dispatches an in-range
percent. -/
theorem C8_turn_on_dispatch_witness :
    0 ≤ CyncRoomEntity._kelvin_to_percent 9000 ∧
      CyncRoomEntity._kelvin_to_percent 9000 ≤ 100 :=
  (C8_turn_on_dispatch ⟨some (255, 0, 0), some 128, some 9000⟩).2.1 9000 rfl

/-- C9: on any backing device state shared field by field, the two adapter
classes compute identical brightness, color-temp Kelvin, rgb tuple, active
color mode, supported-mode set, Kelvin conversion, and turn-on dispatch. -/
theorem C9_adapter_equivalence (room : CyncRoom) (cync_switch : CyncSwitch)
    (hps : room.power_state = cync_switch.power_state)
    (hb : room.brightness = cync_switch.brightness)
    (hct : room.color_temp = cync_switch.color_temp)
    (hrgb : room.rgb = cync_switch.rgb)
    (hsr : room.support_rgb = cync_switch.support_rgb)
    (hsct : room.support_color_temp = cync_switch.support_color_temp)
    (hsb : room.support_brightness = cync_switch.support_brightness) :
    CyncRoomEntity.brightness room = CyncSwitchEntity.brightness cync_switch ∧
    CyncRoomEntity.color_temp_kelvin room =
      CyncSwitchEntity.color_temp_kelvin cync_switch ∧
    CyncRoomEntity.rgb_color room = CyncSwitchEntity.rgb_color cync_switch ∧
    CyncRoomEntity.color_mode room = CyncSwitchEntity.color_mode cync_switch ∧
    CyncRoomEntity._get_supported_color_modes room =
      CyncSwitchEntity._get_supported_color_modes cync_switch ∧
    (∀ k : ℤ,
      CyncRoomEntity._kelvin_to_percent k = CyncSwitchEntity._kelvin_to_percent k) ∧
    (∀ kwargs : TurnOnArgs,
      CyncRoomEntity.async_turn_on kwargs = CyncSwitchEntity.async_turn_on kwargs) := by
  refine ⟨?_, ?_, ?_, ?_, ?_, fun k => rfl, fun kwargs => rfl⟩
  · simp [CyncRoomEntity.brightness, CyncSwitchEntity.brightness, hb]
  · simp [CyncRoomEntity.color_temp_kelvin, CyncSwitchEntity.color_temp_kelvin,
      CyncRoomEntity._attr_min_color_temp_kelvin,
      CyncRoomEntity._attr_max_color_temp_kelvin,
      CyncSwitchEntity._attr_min_color_temp_kelvin,
      CyncSwitchEntity._attr_max_color_temp_kelvin, hsct, hct]
  · simp [CyncRoomEntity.rgb_color, CyncSwitchEntity.rgb_color, hsr, hrgb]
  · simp [CyncRoomEntity.color_mode, CyncSwitchEntity.color_mode,
      CyncRoomEntity.is_on, CyncSwitchEntity.is_on, hps, hsct, hsr, hrgb, hsb]
  · simp [CyncRoomEntity._get_supported_color_modes,
      CyncSwitchEntity._get_supported_color_modes, hsr, hsct, hsb]

/-- C9 witness: the two adapters agree on a concrete shared device state. -/
theorem C9_adapter_equivalence_witness :
    CyncRoomEntity.brightness
        ⟨true, 40, 60, ⟨1, 2, 3, true⟩, true, true, true, "room", ["A"], ["B"]⟩ =
      CyncSwitchEntity.brightness
        ⟨true, 40, 60, ⟨1, 2, 3, true⟩, true, true, true, "sw", "dev1"⟩ :=
  (C9_adapter_equivalence
    ⟨true, 40, 60, ⟨1, 2, 3, true⟩, true, true, true, "room", ["A"], ["B"]⟩
    ⟨true, 40, 60, ⟨1, 2, 3, true⟩, true, true, true, "sw", "dev1"⟩
    rfl rfl rfl rfl rfl rfl rfl).1

/-- C10: without RGB support `rgb_color` returns `None` on both adapters; with
it, the backing rgb values pass through unchanged as a tuple. -/
theorem C10_rgb_color_guard (room : CyncRoom) (cync_switch : CyncSwitch) :
    (room.support_rgb = false → CyncRoomEntity.rgb_color room = none) ∧
    (room.support_rgb = true →
      CyncRoomEntity.rgb_color room = some (room.rgb.r, room.rgb.g, room.rgb.b)) ∧
    (cync_switch.support_rgb = false →
      CyncSwitchEntity.rgb_color cync_switch = none) ∧
    (cync_switch.support_rgb = true →
      CyncSwitchEntity.rgb_color cync_switch =
        some (cync_switch.rgb.r, cync_switch.rgb.g, cync_switch.rgb.b)) := by
  refine ⟨fun h => ?_, fun h => ?_, fun h => ?_, fun h => ?_⟩ <;>
    simp [CyncRoomEntity.rgb_color, CyncSwitchEntity.rgb_color, h]

/-- C10 witness: with RGB support the device rgb dict passes through. -/
theorem C10_rgb_color_guard_witness :
    CyncRoomEntity.rgb_color
        ⟨true, 0, 0, ⟨10, 20, 30, false⟩, true, false, false, "room", [], []⟩ =
      some (10, 20, 30) :=
  (C10_rgb_color_guard
    ⟨true, 0, 0, ⟨10, 20, 30, false⟩, true, false, false, "room", [], []⟩
    ⟨true, 0, 0, ⟨0, 0, 0, false⟩, false, false, false, "sw", "dev1"⟩).2.1 rfl
